import Mathlib

/-!
Verification of the settlement-matching benchmark harness
(`generate_and_assert.py`, `benchmark.py`).

The Python code is embedded shallowly: the global `random` module becomes
explicit state passing of an `Rng` value, file/process effects become
explicit inputs (the sequence of status-file contents observed at each
poll, the engine's captured stdout), and floating-point decimals become
exact rationals (the harness only parses and averages decimal literals;
no float-specific rounding is relied on by any claim).
-/

namespace Harness

/-- Model of the Python `random` module's PRNG state.  CPython's Mersenne
Twister is external library code; it is modelled as a deterministic stream
of naturals (`f`) consumed left to right (`pos`).  Every claim proved below
holds for an arbitrary stream, and seeding (`random.seed(k)`) is modelled
by `pySeed`, which fixes the stream as a function of the seed alone. -/
structure Rng where
  f : Nat → Nat
  pos : Nat

def Rng.next (g : Rng) : Nat × Rng :=
  (g.f g.pos, ⟨g.f, g.pos + 1⟩)

/-- Python `random.seed k`: the stream is a pure function of `k`, so the state after
seeding depends on nothing but the seed. -/
def pySeed (k : Nat) : Rng :=
  ⟨fun i => (k * 2654435761 + i * 40503 + 1) % 4294967296, 0⟩

/-- one draw reduced modulo `n` (used for index selection). -/
def Rng.below (g : Rng) (n : Nat) : Nat × Rng :=
  let (v, g') := g.next
  (v % n, g')

/-- Python `random.choice(l)` for a nonempty `l`: select one element. -/
def pyChoice (l : List α) (d : α) (g : Rng) : α × Rng :=
  let (i, g') := g.below l.length
  (l.getD i d, g')

/-- Python `random.randint(a, b)`: uniform in `[a, b]`, one draw. -/
def pyRandint (a b : Nat) (g : Rng) : Nat × Rng :=
  let (v, g') := g.next
  (a + v % (b - a + 1), g')

/-- Python `random.choices(l, k=n)`: `n` independent draws with replacement. -/
def pyChoices (l : List α) (d : α) : Nat → Rng → List α × Rng
  | 0, g => ([], g)
  | n + 1, g =>
    let (x, g₁) := pyChoice l d g
    let (xs, g₂) := pyChoices l d n g₁
    (x :: xs, g₂)

/-- Python `random.sample(pool, k)`: `k` distinct elements, selection without
replacement (pick an index, remove the element, recurse). -/
def pySample : Nat → List α → Rng → List α × Rng
  | 0, _, g => ([], g)
  | _ + 1, [], g => ([], g)
  | k + 1, x :: xs, g =>
    let (i, g₁) := g.below (x :: xs).length
    let a := (x :: xs).getD i x
    let rest := (x :: xs).eraseIdx i
    let (res, g₂) := pySample k rest g₁
    (a :: res, g₂)

/-- Python `random.shuffle(l)` (Fisher–Yates as pick-and-remove): a permutation of
`l` determined by the stream. -/
def pyShuffle (l : List α) (g : Rng) : List α × Rng :=
  pyShuffleFuel l.length l g
where
  pyShuffleFuel : Nat → List α → Rng → List α × Rng
    | 0, l, g => (l, g)
    | _ + 1, [], g => ([], g)
    | fuel + 1, x :: xs, g =>
      let (i, g₁) := g.below (x :: xs).length
      let a := (x :: xs).getD i x
      let rest := (x :: xs).eraseIdx i
      let (res, g₂) := pyShuffleFuel fuel rest g₁
      (a :: res, g₂)

/-! ### Decimal formatting (Python `%d` / `{:0Nd}` f-string fields)

Python's decimal formatting of a non-negative integer is modelled from
scratch so that its injectivity can be proved. -/

def decDigitsRevAux : Nat → Nat → List Nat
  | 0, _ => []
  | fuel + 1, n => if n < 10 then [n] else (n % 10) :: decDigitsRevAux fuel (n / 10)

/-- little-endian decimal digits of `n` (never empty; the fuel `n + 1`
always suffices since the value shrinks by a factor of ten per digit). -/
def decDigitsRev (n : Nat) : List Nat :=
  decDigitsRevAux (n + 1) n

def digitChar (d : Nat) : Char := Char.ofNat (48 + d)

/-- decimal rendering of `n`, as Python `str(n)` / `f"{n:d}"` produce it. -/
def decString (n : Nat) : String :=
  ⟨((decDigitsRev n).reverse.map digitChar)⟩

/-- zero-padding to width `w`, as Python `f"{n:0wd}"` produces it for a
non-negative value. -/
def pyPad (w : Nat) (s : String) : String :=
  ⟨List.replicate (w - s.length) '0' ++ s.data⟩

/-! ### `generate_and_assert.py` -/

structure Trade where
  obligation_id : String
  venue : String
  isin : String
  account : String
  settle_date : String
  intended_qty : Nat
deriving DecidableEq, Inhabited

def isinAlphabet : List Char :=
  "ABCDEFGHIJKLMNOPQRSTUVWXYZ0123456789".data

/-- Source `rand_isin()`: 12 characters chosen from the 36-letter alphabet. -/
def rand_isin (g : Rng) : String × Rng :=
  let (cs, g') := pyChoices isinAlphabet 'A' 12 g
  (⟨cs⟩, g')

/-- one iteration of the `make_trades` loop body, at index `i`. -/
def mkTrade (i : Nat) (g : Rng) : Trade × Rng :=
  let (venue, g₁) := pyChoice ["LSE", "NYSE", "XETRA"] "LSE" g
  let (isinNum, g₂) := pyRandint 0 9999999999 g₁
  let (accNum, g₃) := pyRandint 100 999 g₂
  let (month, g₄) := pyRandint 1 12 g₃
  let (day, g₅) := pyRandint 1 28 g₄
  let (qty, g₆) := pyChoice [100, 200, 500, 1000] 100 g₅
  (⟨"OBL" ++ pyPad 5 (decString (i + 1)),
    venue,
    "US" ++ pyPad 10 (decString isinNum),
    "ACC" ++ decString accNum,
    "2024-" ++ pyPad 2 (decString month) ++ "-" ++ pyPad 2 (decString day),
    qty⟩, g₆)

def make_tradesAux : List Nat → Rng → List Trade × Rng
  | [], g => ([], g)
  | i :: is, g =>
    let (t, g₁) := mkTrade i g
    let (ts, g₂) := make_tradesAux is g₁
    (t :: ts, g₂)

/-- Source `make_trades(n)`: `n` trades built in index order. -/
def make_trades (n : Nat) (g : Rng) : List Trade × Rng :=
  make_tradesAux (List.range n) g

/-- Source `as_bank_line(t)`: `id,venue,isin,account,settleDate,intendedQty`. -/
def as_bank_line (t : Trade) : String :=
  t.obligation_id ++ "," ++ t.venue ++ "," ++ t.isin ++ "," ++ t.account
    ++ "," ++ t.settle_date ++ "," ++ decString t.intended_qty

/-- Source `as_market_line(t, msg_id, seq)`: MATCHED with the intended quantity and
the fixed ISO instant. -/
def as_market_line (t : Trade) (msg_id : String) (seq : Nat) : String :=
  msg_id ++ "," ++ decString seq ++ ",MATCHED," ++ t.isin ++ "," ++ t.account
    ++ "," ++ t.settle_date ++ "," ++ decString t.intended_qty
    ++ ",2024-01-01T00:00:00Z"

/-- the `msg_seq` dict: obligation id ↦ (message id, last sequence). -/
def seqLookup (m : List (String × String × Nat)) (k : String) : String × Nat :=
  ((m.find? (fun kv => kv.1 = k)).map Prod.snd).getD ("", 0)

/-- the primary phase: one MATCHED event per trade, recording
`msg_seq[t.obligation_id] = (msg_id, 1)`. -/
def primaryLines (trades : List Trade) : List String :=
  trades.map (fun t => as_market_line t ("M_" ++ t.obligation_id) 1)

def primarySeqMap (trades : List Trade) : List (String × String × Nat) :=
  trades.map (fun t => (t.obligation_id, ("M_" ++ t.obligation_id, 1)))

/-- the duplicate phase: sample indices into `trades` and re-emit the exact
stored line of each one. -/
def dupLines (trades : List Trade) (n_duplicates : Nat) (g : Rng) :
    List String × Rng :=
  let (dup_indices, g') :=
    if n_duplicates > 0 then
      pySample (min n_duplicates trades.length) (List.range trades.length) g
    else ([], g)
  (dup_indices.map (fun idx =>
    let t := trades.getD idx default
    let (msg_id, seq) := seqLookup (primarySeqMap trades) t.obligation_id
    as_market_line t msg_id seq), g')

/-- one fake (unmatched) event, at index `i`. -/
def mkUnmatchLine (i : Nat) (g : Rng) : String × Rng :=
  let (isin, g₁) := rand_isin g
  let (month, g₂) := pyRandint 1 12 g₁
  let (day, g₃) := pyRandint 1 28 g₂
  let (qty, g₄) := pyChoice [100, 200, 500] 100 g₃
  let fake : Trade :=
    ⟨"FAKE" ++ decString (i + 1), "OTC", isin, "ACC" ++ decString (1000 + i),
      "2024-" ++ pyPad 2 (decString month) ++ "-" ++ pyPad 2 (decString day),
      qty⟩
  (as_market_line fake ("M_FAKE" ++ decString (i + 1)) 1, g₄)

def unmatchLinesAux : List Nat → Rng → List String × Rng
  | [], g => ([], g)
  | i :: is, g =>
    let (l, g₁) := mkUnmatchLine i g
    let (ls, g₂) := unmatchLinesAux is g₁
    (l :: ls, g₂)

def unmatchLines (n : Nat) (g : Rng) : List String × Rng :=
  unmatchLinesAux (List.range n) g

structure GeneratedDataset where
  bank_lines : List String
  market_lines : List String
  expected : Nat × Nat × Nat
deriving DecidableEq

/-- Source `generate_dataset(n_trades, n_unmatches, n_duplicates)`: trades, one
primary MATCHED line per trade, duplicates, fakes, independent shuffles, and
the analytic expected triple `(n_trades, n_unmatches, n_duplicates)`. -/
def generate_dataset (n_trades n_unmatches n_duplicates : Nat) (g : Rng) :
    GeneratedDataset × Rng :=
  let (trades, g₁) := make_trades n_trades g
  let bank_lines := trades.map as_bank_line
  let prim := primaryLines trades
  let (dups, g₂) := dupLines trades n_duplicates g₁
  let (fakes, g₃) := unmatchLines n_unmatches g₂
  let market_lines := prim ++ dups ++ fakes
  let (bank_shuffled, g₄) := pyShuffle bank_lines g₃
  let (market_shuffled, g₅) := pyShuffle market_lines g₄
  (⟨bank_shuffled, market_shuffled, (n_trades, n_unmatches, n_duplicates)⟩, g₅)

/-! ### `run_kotlin_runner_and_wait`: the polling loop and the cleanup block

File and process effects are made explicit: the loop body's successive
reads of the status artifact become a list of observations (`none` when the
file does not yet exist), and the single read performed after the timeout
becomes a final observation. -/

/-- Python `str.split(sep)` for a non-empty separator, on character lists
(fuel-structural so that it evaluates inside the kernel; the fuel is the
list length, which always suffices since each step consumes at least one
character). -/
def splitOnListFuel (sep : List Char) : Nat → List Char → List (List Char)
  | 0, l => [l]
  | _ + 1, [] => [[]]
  | fuel + 1, x :: xs =>
    if sep.isPrefixOf (x :: xs) ∧ sep ≠ [] then
      [] :: splitOnListFuel sep fuel ((x :: xs).drop sep.length)
    else
      match splitOnListFuel sep fuel xs with
      | [] => [[x]]
      | h :: t => (x :: h) :: t

def pySplitOn (s sep : String) : List String :=
  (splitOnListFuel sep.data s.data.length s.data).map (⟨·⟩)

/-- Python `str.startswith(pre)`. -/
def strStarts (s pre : String) : Bool :=
  pre.data.isPrefixOf s.data

/-- Python `str.strip()` on the ASCII whitespace the engine can emit. -/
def pyStrip (s : String) : String :=
  ⟨(((s.data.dropWhile isWS).reverse.dropWhile isWS).reverse)⟩
where
  isWS (c : Char) : Bool := c = ' ' ∨ c = '\t' ∨ c = '\n' ∨ c = '\r'

/-- Python `str.replace(pat, rep)` for a non-empty pattern: replace every
non-overlapping occurrence, left to right. -/
def replaceFuel (pat rep : List Char) : Nat → List Char → List Char
  | 0, l => l
  | _ + 1, [] => []
  | fuel + 1, x :: xs =>
    if pat.isPrefixOf (x :: xs) ∧ pat ≠ [] then
      rep ++ replaceFuel pat rep fuel ((x :: xs).drop pat.length)
    else
      x :: replaceFuel pat rep fuel xs

def pyReplace (s pat rep : String) : String :=
  ⟨replaceFuel pat.data rep.data s.data.length s.data⟩

/-- Python `sep.join(parts)`. -/
def joinWith (sep : String) (parts : List String) : String :=
  ⟨List.intercalate sep.data (parts.map (·.data))⟩

/-- Python `str.splitlines()` (no trailing empty piece for a trailing
newline). -/
def pySplitlines (s : String) : List String :=
  let parts := pySplitOn s "\n"
  if parts.getLast? = some "" then parts.dropLast else parts

/-- substring containment, Python's `pat in s`. -/
def strContainsSub (s pat : String) : Bool :=
  go pat.data s.data
where
  go (pat : List Char) : List Char → Bool
    | [] => pat.isEmpty
    | c :: rest => pat.isPrefixOf (c :: rest) || go pat rest

/-- the three line counts the loop body computes from the status artifact's
content. -/
def countStatus (text : String) : Nat × Nat × Nat :=
  let lines := pySplitlines text
  (lines.countP (fun l =>
      strStarts l "StateChanged(" && strContainsSub l "to=Matched"),
   lines.countP (fun l => strStarts l "NoMatch("),
   lines.countP (fun l => strStarts l "DuplicateIgnored("))

/-- counts of an observation: a missing file contributes nothing (the code
only reads when `STATUS.exists()`), and after the timeout a missing file
yields `(0, 0, 0)`. -/
def countStatusOpt : Option String → Nat × Nat × Nat
  | some t => countStatus t
  | none => (0, 0, 0)

inductive PollResult where
  | satisfied (counts : Nat × Nat × Nat)
  | timedOut (counts : Nat × Nat × Nat)
deriving DecidableEq

/-- the `while time.time() - start < timeout_sec` loop: at each poll, if the
file exists and its counts equal `expected`, return them at once; once the
observations within the timeout window are exhausted, re-read the file and
return whatever was seen. -/
def pollLoop (expected : Nat × Nat × Nat) :
    List (Option String) → Option String → PollResult
  | [], final => .timedOut (countStatusOpt final)
  | o :: rest, final =>
    match o with
    | some t =>
      if countStatus t = expected then .satisfied (countStatus t)
      else pollLoop expected rest final
    | none => pollLoop expected rest final

/-- how the try-block of `run_kotlin_runner_and_wait` can end: a normal
return (the satisfied or the timed-out counts), or an exception raised
while polling (file I/O can raise). -/
inductive BodyOutcome where
  | finished (r : PollResult)
  | raised
deriving DecidableEq

inductive ChildState where
  | running
  | exited
  | killed
deriving DecidableEq

/-- the `finally` block: `proc.terminate(); proc.wait(timeout=5)`, and if the
wait times out (the child ignored the termination request within the grace
period) the `except` arm calls `proc.kill()`.  `exitsOnTerminate` is the
child's behaviour: whether it exits within the grace period. -/
def finallyCleanup (exitsOnTerminate : Bool) : ChildState :=
  if exitsOnTerminate then .exited else .killed

/-- Source `run_kotlin_runner_and_wait` with its effects explicit: the body runs to
one of its outcomes, and the `finally` block runs on that exit path
regardless of which one it was. -/
def run_kotlin_runner_and_wait (body : BodyOutcome) (exitsOnTerminate : Bool) :
    BodyOutcome × ChildState :=
  (body, finallyCleanup exitsOnTerminate)

/-! ### `benchmark.py` -/

structure BenchmarkConfig where
  name : String
  description : String
  num_obligations : Nat
  num_status_events : Nat
  num_duplicates : Nat
  num_unmatches : Nat
  warmup_iterations : Nat
  measurement_iterations : Nat
  timeout_sec : ℚ
deriving DecidableEq

structure PerformanceMetrics where
  scenario_name : String
  obligations_count : Nat
  status_events_count : Nat
  duration_ms : ℚ
  throughput_ops_per_sec : ℚ
  memory_used_mb : ℚ
  gc_time_ms : ℚ
  cpu_time_ms : ℚ
  peak_entities : ℤ
deriving DecidableEq

structure BenchmarkResult where
  config : BenchmarkConfig
  metrics : List PerformanceMetrics
  mean_metrics : PerformanceMetrics
  timestamp : String
deriving DecidableEq

/-! #### `_parse_kotlin_metrics`

The profiling dict is modelled as an association list of rational values
(Python stores `float`s and one `int`; decimal parsing is exact, so ℚ is a
faithful carrier). -/

def digitsVal (l : List Char) : Option Nat :=
  if l ≠ [] ∧ l.all Char.isDigit then
    some (l.foldl (fun a c => a * 10 + (c.toNat - 48)) 0)
  else none

/-- Python `float(value)` on the decimal literals the engine emits
(`digits` or `digits.digits`); anything else is a `ValueError`, i.e.
`none`. -/
def parsePyFloat (s : String) : Option ℚ :=
  match pySplitOn s "." with
  | [a] => (digitsVal a.data).map (fun n => (n : ℚ))
  | [a, b] =>
    match digitsVal a.data, digitsVal b.data with
    | some x, some y => some ((x : ℚ) + (y : ℚ) / (10 : ℚ) ^ b.length)
    | _, _ => none
  | _ => none

/-- Python `int(value)` on the digit strings the engine emits. -/
def parsePyInt (s : String) : Option ℚ :=
  (digitsVal s.data).map (fun n => (n : ℚ))

abbrev PyDict := List (String × ℚ)

/-- dict assignment `d[k] = v` (the parser only writes keys that are already
present, but insertion is modelled too). -/
def dictSet (d : PyDict) (k : String) (v : ℚ) : PyDict :=
  if (List.lookup k d).isSome then
    d.map (fun kv => if kv.1 = k then (k, v) else kv)
  else d ++ [(k, v)]

def dictGet (d : PyDict) (k : String) (dflt : ℚ) : ℚ :=
  (List.lookup k d).getD dflt

/-- the loop body over one `key=value` pair: split at the first `=`, strip
both sides, and update the matching field; an unparseable value is a
`ValueError` caught by the `except` arm, skipping just that pair. -/
def parsePair (d : PyDict) (pair : String) : PyDict :=
  let parts := pySplitOn pair "="
  if parts.length ≥ 2 then
    let key := pyStrip (parts.headD "")
    let value := pyStrip (joinWith "=" parts.tail)
    if key = "memory_mb" then
      match parsePyFloat value with
      | some q => dictSet d "memory_mb" q
      | none => d
    else if key = "gc_time_ms" then
      match parsePyFloat value with
      | some q => dictSet d "gc_time_ms" q
      | none => d
    else if key = "duration_ms" then
      match parsePyFloat value with
      | some q => dictSet d "cpu_time_ms" q
      | none => d
    else if key = "peak_entities" then
      match parsePyInt value with
      | some q => dictSet d "peak_entities" q
      | none => d
    else d
  else d

def metricsBaseDict : PyDict :=
  [("memory_mb", 0), ("gc_time_ms", 0), ("cpu_time_ms", 0),
   ("peak_entities", 0)]

/-- Source `_parse_kotlin_metrics(stdout)`: find the first line starting with the
marker, strip the marker, split on `", "`, fold the pairs into the
pre-initialised dict; no marker line leaves the dict all zeros. -/
def parse_kotlin_metrics (stdout : String) : PyDict :=
  match (pySplitlines stdout).find?
      (fun line => strStarts line "BENCHMARK_METRICS:") with
  | none => metricsBaseDict
  | some line =>
    let metrics_str := pyStrip (pyReplace line "BENCHMARK_METRICS:" "")
    (pySplitOn metrics_str ", ").foldl parsePair metricsBaseDict

/-! #### `_run_single_measurement` and the aggregation -/

/-- Python `int(q)` (truncation toward zero). -/
def pyIntTrunc (q : ℚ) : ℤ := q.num / (q.den : ℤ)

/-- the `PerformanceMetrics(...)` construction of `_run_single_measurement`:
wall-clock duration around the spawn-and-poll call, derived throughput, and
`profiling_data.get(key, fallback)` lookups. -/
def run_single_measurement (config : BenchmarkConfig) (duration_ms : ℚ)
    (profiling_data : PyDict) : PerformanceMetrics :=
  { scenario_name := config.name
    obligations_count := config.num_obligations
    status_events_count := config.num_status_events
    duration_ms := duration_ms
    throughput_ops_per_sec :=
      if duration_ms > 0 then
        (config.num_status_events : ℚ) / (duration_ms / 1000)
      else 0
    memory_used_mb := dictGet profiling_data "memory_mb" 0
    gc_time_ms := dictGet profiling_data "gc_time_ms" 0
    cpu_time_ms := dictGet profiling_data "cpu_time_ms" duration_ms
    peak_entities :=
      pyIntTrunc (dictGet profiling_data "peak_entities"
        (config.num_obligations : ℚ)) }

/-- Python `statistics.mean` (callers never pass an empty list). -/
def pyMean (xs : List ℚ) : ℚ := xs.sum / (xs.length : ℚ)

/-- Python `statistics.stdev`: the sample standard deviation,
`sqrt (Σ (x - mean)² / (n - 1))`. -/
def sampleVariance (xs : List ℚ) : ℚ :=
  (xs.map (fun x => (x - pyMean xs) ^ 2)).sum / ((xs.length : ℚ) - 1)

noncomputable def pyStdev (xs : List ℚ) : ℝ :=
  Real.sqrt ((sampleVariance xs : ℚ) : ℝ)

/-- Source `_calculate_mean_metrics(config, metrics)`: field-wise arithmetic means,
with the peak-entity mean truncated back to an int. -/
def calculate_mean_metrics (config : BenchmarkConfig)
    (metrics : List PerformanceMetrics) : PerformanceMetrics :=
  { scenario_name := config.name
    obligations_count := config.num_obligations
    status_events_count := config.num_status_events
    duration_ms := pyMean (metrics.map (·.duration_ms))
    throughput_ops_per_sec := pyMean (metrics.map (·.throughput_ops_per_sec))
    memory_used_mb := pyMean (metrics.map (·.memory_used_mb))
    gc_time_ms := pyMean (metrics.map (·.gc_time_ms))
    cpu_time_ms := pyMean (metrics.map (·.cpu_time_ms))
    peak_entities :=
      pyIntTrunc (pyMean (metrics.map (fun m => (m.peak_entities : ℚ)))) }

/-- Source `run_benchmark(config)`: the warmup iterations record nothing; the
measurement loop appends one metric per iteration (the `i`-th measured
outcome is an input, `measure i`), and the result keeps the full ordered
list together with its mean. -/
def run_benchmark (config : BenchmarkConfig)
    (measure : Nat → PerformanceMetrics) (timestamp : String) :
    BenchmarkResult :=
  let metrics := (List.range config.measurement_iterations).map measure
  { config := config
    metrics := metrics
    mean_metrics := calculate_mean_metrics config metrics
    timestamp := timestamp }

/-! #### `_generate_dataset` (benchmark variant) -/

/-- association-list update for the `msg_seq` dict. -/
def seqSet (m : List (String × String × Nat)) (k : String)
    (v : String × Nat) : List (String × String × Nat) :=
  if (m.find? (fun kv => kv.1 = k)).isSome then
    m.map (fun kv => if kv.1 = k then (k, v) else kv)
  else m ++ [(k, v)]

/-- the additional-event line at position `i`: partial settlement, full
settlement, or acknowledgment, cycling on `i % 3` (Python `//` is `Nat.div`
on these non-negative quantities). -/
def additionalEventLine (msg_id : String) (new_seq : Nat) (t : Trade)
    (i : Nat) : String :=
  if i % 3 = 0 then
    msg_id ++ "," ++ decString new_seq ++ ",PARTIAL_SETTLED," ++ t.isin
      ++ "," ++ t.account ++ "," ++ t.settle_date ++ ","
      ++ decString (t.intended_qty / 4) ++ ",2024-01-01T00:00:00Z"
  else if i % 3 = 1 then
    msg_id ++ "," ++ decString new_seq ++ ",SETTLED," ++ t.isin
      ++ "," ++ t.account ++ "," ++ t.settle_date ++ ","
      ++ decString t.intended_qty ++ ",2024-01-01T00:00:00Z"
  else
    msg_id ++ "," ++ decString new_seq ++ ",ACK," ++ t.isin
      ++ "," ++ t.account ++ "," ++ t.settle_date ++ ","
      ++ decString t.intended_qty ++ ",2024-01-01T00:00:00Z"

structure BenchGenState where
  market_lines : List String
  msg_seq : List (String × String × Nat)
  rng : Rng

/-- one iteration of the additional-events loop at index `i`: choose a
random existing trade, extend its message with the next sequence number,
and append the line whose status is selected by `i % 3`. -/
def addEvent (trades : List Trade) (i : Nat) (st : BenchGenState) :
    BenchGenState :=
  let (t, g₁) := pyChoice trades default st.rng
  let (msg_id, last_seq) := seqLookup st.msg_seq t.obligation_id
  let new_seq := last_seq + 1
  let line := additionalEventLine msg_id new_seq t i
  ⟨st.market_lines ++ [line],
   seqSet st.msg_seq t.obligation_id (msg_id, new_seq), g₁⟩

/-- the `for i in range(additional_events)` loop. -/
def addEvents (trades : List Trade) (n : Nat) (st : BenchGenState) :
    BenchGenState :=
  (List.range n).foldl (fun s i => addEvent trades i s) st

/-- Source `_generate_dataset(config)`: primaries, additional events, duplicates
sampled over all events generated so far, fakes, and a final shuffle of the
market lines only. -/
def generate_dataset_bench (config : BenchmarkConfig) (g : Rng) :
    (List String × List String) × Rng :=
  let (trades, g₁) := make_trades config.num_obligations g
  let bank_lines := trades.map as_bank_line
  let st₀ : BenchGenState := ⟨primaryLines trades, primarySeqMap trades, g₁⟩
  let st := addEvents trades (config.num_status_events - trades.length) st₀
  let (dup_indices, g₂) :=
    pySample (min config.num_duplicates st.market_lines.length)
      (List.range st.market_lines.length) st.rng
  let withDups := st.market_lines ++
    dup_indices.map (fun idx => st.market_lines.getD idx "")
  let (fakes, g₃) := benchFakes config.num_unmatches g₂
  let (market_shuffled, g₄) := pyShuffle (withDups ++ fakes) g₃
  ((bank_lines, market_shuffled), g₄)
where
  /-- the benchmark's fake (unmatched) lines:
  `FAKE_i,1,MATCHED,FAKE......,ACC999,2024-12-31,100,...`. -/
  benchFakesAux : List Nat → Rng → List String × Rng
    | [], g => ([], g)
    | i :: is, g =>
      let (fakeNum, g₁) := pyRandint 100000 999999 g
      let line := "FAKE_" ++ decString i ++ ",1,MATCHED,FAKE"
        ++ decString fakeNum
        ++ ",ACC999,2024-12-31,100,2024-01-01T00:00:00Z"
      let (ls, g₂) := benchFakesAux is g₁
      (line :: ls, g₂)
  benchFakes (n : Nat) (g : Rng) : List String × Rng :=
    benchFakesAux (List.range n) g

/-! ## Lemmas: decimal formatting is injective -/

def ofDigitsRev : List Nat → Nat
  | [] => 0
  | d :: ds => d + 10 * ofDigitsRev ds

theorem ofDigitsRev_decDigitsRevAux :
    ∀ (fuel n : Nat), n < fuel →
      ofDigitsRev (decDigitsRevAux fuel n) = n := by
  intro fuel
  induction fuel with
  | zero => intro n h; omega
  | succ fuel ih =>
    intro n h
    rw [decDigitsRevAux]
    split
    · simp [ofDigitsRev]
    · have hfuel : n / 10 < fuel := by omega
      simp only [ofDigitsRev, ih _ hfuel]
      omega

theorem ofDigitsRev_decDigitsRev (n : Nat) :
    ofDigitsRev (decDigitsRev n) = n :=
  ofDigitsRev_decDigitsRevAux (n + 1) n (by omega)

theorem decDigitsRev_injective : Function.Injective decDigitsRev := by
  intro a b h
  have := ofDigitsRev_decDigitsRev a
  rw [h, ofDigitsRev_decDigitsRev] at this
  omega

theorem decDigitsRevAux_lt :
    ∀ (fuel n : Nat), n < fuel → ∀ d ∈ decDigitsRevAux fuel n, d < 10 := by
  intro fuel
  induction fuel with
  | zero => intro n h; omega
  | succ fuel ih =>
    intro n h
    rw [decDigitsRevAux]
    split
    · intro d hd
      simp only [List.mem_singleton] at hd
      omega
    · intro d hd
      have hfuel : n / 10 < fuel := by omega
      rcases List.mem_cons.mp hd with h' | h'
      · omega
      · exact ih _ hfuel d h'

theorem decDigitsRev_lt (n : Nat) : ∀ d ∈ decDigitsRev n, d < 10 :=
  decDigitsRevAux_lt (n + 1) n (by omega)

theorem digitChar_inj_lt :
    ∀ d, d < 10 → ∀ e, e < 10 → digitChar d = digitChar e → d = e := by
  decide

theorem map_digitChar_inj :
    ∀ l₁ l₂ : List Nat, (∀ d ∈ l₁, d < 10) → (∀ d ∈ l₂, d < 10) →
      l₁.map digitChar = l₂.map digitChar → l₁ = l₂ := by
  intro l₁
  induction l₁ with
  | nil => intro l₂ _ _ h; cases l₂ <;> simp_all
  | cons d ds ih =>
    intro l₂ h₁ h₂ h
    cases l₂ with
    | nil => simp at h
    | cons e es =>
      simp only [List.map_cons, List.cons.injEq] at h
      have hd := digitChar_inj_lt d (h₁ d (by simp)) e (h₂ e (by simp)) h.1
      have ht := ih es (fun x hx => h₁ x (by simp [hx]))
        (fun x hx => h₂ x (by simp [hx])) h.2
      rw [hd, ht]

theorem decString_injective : Function.Injective decString := by
  intro a b h
  have hdata := congrArg String.data h
  simp only [decString] at hdata
  have hrev : (decDigitsRev a).reverse = (decDigitsRev b).reverse :=
    map_digitChar_inj _ _
      (fun d hd => decDigitsRev_lt a d (List.mem_reverse.mp hd))
      (fun d hd => decDigitsRev_lt b d (List.mem_reverse.mp hd)) hdata
  exact decDigitsRev_injective (List.reverse_injective hrev)

theorem decDigitsRevAux_reverse_pos :
    ∀ (fuel n : Nat), n < fuel → 1 ≤ n →
      ∃ d rest, (decDigitsRevAux fuel n).reverse = d :: rest ∧
        d ≠ 0 ∧ d < 10 := by
  intro fuel
  induction fuel with
  | zero => intro n h; omega
  | succ fuel ih =>
    intro n h hn
    rw [decDigitsRevAux]
    split
    · exact ⟨n, [], by simp, by omega, by omega⟩
    · have hfuel : n / 10 < fuel := by omega
      have hpos : 1 ≤ n / 10 := by omega
      obtain ⟨d, rest, hrev, hd0, hd10⟩ := ih (n / 10) hfuel hpos
      exact ⟨d, rest ++ [n % 10], by simp [hrev], hd0, hd10⟩

/-- the most significant digit of a positive number is nonzero. -/
theorem decDigitsRev_reverse_pos (n : Nat) (hn : 1 ≤ n) :
    ∃ d rest, (decDigitsRev n).reverse = d :: rest ∧ d ≠ 0 ∧ d < 10 :=
  decDigitsRevAux_reverse_pos (n + 1) n (by omega) hn

theorem dropZeros_replicate_append (k : Nat) (l : List Char) :
    (List.replicate k '0' ++ l).dropWhile (· == '0') =
      l.dropWhile (· == '0') := by
  induction k with
  | zero => simp
  | succ k ih => simp [List.replicate_succ, List.dropWhile, ih]

theorem dropZeros_of_head_ne (c : Char) (rest : List Char) (hc : c ≠ '0') :
    (c :: rest).dropWhile (· == '0') = c :: rest := by
  have hcc : (c == '0') = false := by
    simpa using hc
  simp [List.dropWhile, hcc]

theorem digitChar_ne_zeroChar' :
    ∀ d, d < 10 → d ≠ 0 → digitChar d ≠ '0' := by
  decide

theorem digitChar_ne_zeroChar (d : Nat) (h0 : d ≠ 0) (h10 : d < 10) :
    digitChar d ≠ '0' :=
  digitChar_ne_zeroChar' d h10 h0

theorem pyPad_decString_inj (w a b : Nat) (ha : 1 ≤ a) (hb : 1 ≤ b)
    (h : pyPad w (decString a) = pyPad w (decString b)) : a = b := by
  have hdata := congrArg String.data h
  simp only [pyPad] at hdata
  obtain ⟨da, ra, hda, hda0, hda10⟩ := decDigitsRev_reverse_pos a ha
  obtain ⟨db, rb, hdb, hdb0, hdb10⟩ := decDigitsRev_reverse_pos b hb
  have hdataA : (decString a).data = digitChar da :: ra.map digitChar := by
    simp [decString, hda]
  have hdataB : (decString b).data = digitChar db :: rb.map digitChar := by
    simp [decString, hdb]
  have hdrop := congrArg (List.dropWhile (· == '0')) hdata
  rw [dropZeros_replicate_append, dropZeros_replicate_append,
    hdataA, hdataB,
    dropZeros_of_head_ne _ _ (digitChar_ne_zeroChar da hda0 hda10),
    dropZeros_of_head_ne _ _ (digitChar_ne_zeroChar db hdb0 hdb10)]
    at hdrop
  rw [← hdataA, ← hdataB] at hdrop
  refine decString_injective ?_
  cases hsa : decString a
  cases hsb : decString b
  simp_all

/-- the obligation identifier written by `mkTrade` at loop index `i`. -/
def oblIdStr (i : Nat) : String := "OBL" ++ pyPad 5 (decString (i + 1))

theorem oblIdStr_injective : Function.Injective oblIdStr := by
  intro i j h
  have hdata := congrArg String.data h
  simp only [oblIdStr] at hdata
  have : ("OBL" ++ pyPad 5 (decString (i + 1))).data =
      "OBL".data ++ (pyPad 5 (decString (i + 1))).data := rfl
  have hcancel : (pyPad 5 (decString (i + 1))).data =
      (pyPad 5 (decString (j + 1))).data := by
    have h2 : "OBL".data ++ (pyPad 5 (decString (i + 1))).data =
        "OBL".data ++ (pyPad 5 (decString (j + 1))).data := hdata
    exact List.append_cancel_left h2
  have hpad : pyPad 5 (decString (i + 1)) = pyPad 5 (decString (j + 1)) := by
    cases hpa : pyPad 5 (decString (i + 1))
    cases hpb : pyPad 5 (decString (j + 1))
    simp_all
  have := pyPad_decString_inj 5 (i + 1) (j + 1) (by omega) (by omega) hpad
  omega

/-! ## Claim C3: obligation count and identifier uniqueness -/

theorem mkTrade_obligation_id (i : Nat) (g : Rng) :
    (mkTrade i g).1.obligation_id = oblIdStr i := rfl

theorem make_tradesAux_length (l : List Nat) (g : Rng) :
    (make_tradesAux l g).1.length = l.length := by
  induction l generalizing g with
  | nil => rfl
  | cons i is ih => simp [make_tradesAux, ih]

theorem make_tradesAux_ids (l : List Nat) (g : Rng) :
    (make_tradesAux l g).1.map (·.obligation_id) = l.map oblIdStr := by
  induction l generalizing g with
  | nil => rfl
  | cons i is ih =>
    simp only [make_tradesAux, List.map_cons]
    rw [mkTrade_obligation_id, ih]

/-- C3: for every non-negative obligation count `n`, `make_trades` produces
exactly `n` obligation records, and their obligation identifiers are
pairwise distinct. -/
theorem make_trades_count_and_unique_ids (n : Nat) (g : Rng) :
    (make_trades n g).1.length = n ∧
      ((make_trades n g).1.map (·.obligation_id)).Nodup := by
  constructor
  · rw [make_trades, make_tradesAux_length, List.length_range]
  · rw [make_trades, make_tradesAux_ids]
    exact (List.nodup_range n).map oblIdStr_injective

/-! ## Claim C1: the expected triple versus the duplicates actually emitted -/

theorem length_eraseIdx_lt {α : Type} :
    ∀ (l : List α) (i : Nat), i < l.length →
      (l.eraseIdx i).length = l.length - 1 := by
  intro l
  induction l with
  | nil => intro i h; simp at h
  | cons x xs ih =>
    intro i h
    cases i with
    | zero => simp [List.eraseIdx]
    | succ j =>
      simp only [List.eraseIdx, List.length_cons]
      rw [ih j (by simpa using h)]
      simp at h
      omega

theorem pySample_length {α : Type} :
    ∀ (k : Nat) (pool : List α) (g : Rng),
      (pySample k pool g).1.length = min k pool.length := by
  intro k
  induction k with
  | zero => intro pool g; simp [pySample]
  | succ k ih =>
    intro pool g
    cases pool with
    | nil => simp [pySample]
    | cons x xs =>
      simp only [pySample, Rng.below, Rng.next, List.length_cons]
      rw [ih]
      have hi : g.f g.pos % (xs.length + 1) < (x :: xs).length := by
        simp only [List.length_cons]
        exact Nat.mod_lt _ (by omega)
      rw [length_eraseIdx_lt _ _ hi]
      simp only [List.length_cons]
      omega

theorem pyShuffleFuel_length {α : Type} :
    ∀ (fuel : Nat) (l : List α) (g : Rng),
      (pyShuffle.pyShuffleFuel fuel l g).1.length = l.length := by
  intro fuel
  induction fuel with
  | zero => intro l g; simp [pyShuffle.pyShuffleFuel]
  | succ fuel ih =>
    intro l g
    cases l with
    | nil => simp [pyShuffle.pyShuffleFuel]
    | cons x xs =>
      simp only [pyShuffle.pyShuffleFuel, Rng.below, Rng.next,
        List.length_cons]
      rw [ih]
      have hi : g.f g.pos % (xs.length + 1) < (x :: xs).length := by
        simp only [List.length_cons]
        exact Nat.mod_lt _ (by omega)
      rw [length_eraseIdx_lt _ _ hi]
      simp

theorem pyShuffle_length {α : Type} (l : List α) (g : Rng) :
    (pyShuffle l g).1.length = l.length := by
  rw [pyShuffle]
  exact pyShuffleFuel_length l.length l g

theorem primaryLines_length (trades : List Trade) :
    (primaryLines trades).length = trades.length := by
  simp [primaryLines]

/-- the duplicate phase emits `min n_duplicates trades.length` lines: the
requested count, silently capped to the events available before
duplication. -/
theorem dupLines_length (trades : List Trade) (n_duplicates : Nat)
    (g : Rng) :
    (dupLines trades n_duplicates g).1.length =
      min n_duplicates trades.length := by
  by_cases h : n_duplicates > 0
  · simp only [dupLines, h, if_pos, List.length_map]
    rcases hs : pySample (min n_duplicates trades.length)
        (List.range trades.length) g with ⟨res, g'⟩
    have := pySample_length (min n_duplicates trades.length)
      (List.range trades.length) g
    rw [hs] at this
    simpa using this
  · have h0 : n_duplicates = 0 := by omega
    subst h0
    simp [dupLines]

theorem unmatchLinesAux_length (l : List Nat) (g : Rng) :
    (unmatchLinesAux l g).1.length = l.length := by
  induction l generalizing g with
  | nil => rfl
  | cons i is ih => simp [unmatchLinesAux, ih]

theorem unmatchLines_length (n : Nat) (g : Rng) :
    (unmatchLines n g).1.length = n := by
  rw [unmatchLines, unmatchLinesAux_length, List.length_range]

/-- C1 (amended): the expected triple reports the *requested* counts,
`(obligationCount, unmatchCount, duplicateCount)`, while the market feed
actually contains `obligationCount + min duplicateCount obligationCount +
unmatchCount` lines — i.e. the emitted duplicate total is capped at the
events available before duplication, but the reported total is not. -/
theorem generate_dataset_expected_and_sizes
    (nT nU nD : Nat) (g : Rng) :
    (generate_dataset nT nU nD g).1.expected = (nT, nU, nD) ∧
      (generate_dataset nT nU nD g).1.bank_lines.length = nT ∧
      (generate_dataset nT nU nD g).1.market_lines.length =
        nT + min nD nT + nU := by
  rcases htr : make_trades nT g with ⟨trades, g₁⟩
  rcases hdup : dupLines trades nD g₁ with ⟨dups, g₂⟩
  rcases hun : unmatchLines nU g₂ with ⟨fakes, g₃⟩
  rcases hb : pyShuffle (trades.map as_bank_line) g₃ with ⟨bs, g₄⟩
  rcases hm : pyShuffle (primaryLines trades ++ dups ++ fakes) g₄
    with ⟨ms, g₅⟩
  have htlen : trades.length = nT := by
    have := (make_trades_count_and_unique_ids nT g).1
    rw [htr] at this
    exact this
  have hblen : bs.length = nT := by
    have := pyShuffle_length (trades.map as_bank_line) g₃
    rw [hb] at this
    simpa [htlen] using this
  have hdlen : dups.length = min nD nT := by
    have := dupLines_length trades nD g₁
    rw [hdup] at this
    simpa [htlen] using this
  have hflen : fakes.length = nU := by
    have := unmatchLines_length nU g₂
    rw [hun] at this
    exact this
  have hmlen : ms.length = nT + min nD nT + nU := by
    have := pyShuffle_length (primaryLines trades ++ dups ++ fakes) g₄
    rw [hm] at this
    simp only [List.length_append, primaryLines_length, htlen, hdlen,
      hflen] at this
    exact this
  simp only [generate_dataset, htr, hdup, hun, hb, hm]
  exact ⟨trivial, hblen, hmlen⟩

/-- C1 counterexample: with one obligation and two requested duplicates,
the generator reports `expected.duplicates = 2` although only one market
event was available to duplicate (and only one duplicate line was in fact
emitted: the market feed has 2 lines, 1 primary + 1 duplicate + 0 fakes),
so `expected.duplicates ≠ min duplicateCount eventsAvailable`. -/
theorem generate_dataset_dup_cap_cex :
    (generate_dataset 1 0 2 (pySeed 0)).1.expected.2.2 = 2 ∧
      (primaryLines (make_trades 1 (pySeed 0)).1).length = 1 ∧
      (generate_dataset 1 0 2 (pySeed 0)).1.market_lines.length = 2 ∧
      ¬((generate_dataset 1 0 2 (pySeed 0)).1.expected.2.2 =
        min 2 (primaryLines (make_trades 1 (pySeed 0)).1).length) := by
  refine ⟨rfl, rfl, ?_, ?_⟩
  · have := (generate_dataset_expected_and_sizes 1 0 2 (pySeed 0)).2.2
    simpa using this
  · intro h
    rw [show (generate_dataset 1 0 2 (pySeed 0)).1.expected.2.2 = 2 from rfl,
      show (primaryLines (make_trades 1 (pySeed 0)).1).length = 1 from rfl]
      at h
    norm_num at h

/-! ## Claim C2: determinism of the generator under a fixed seed -/

/-- C2: two runs of the generator with the same seed and the same
parameters produce identical obligation-line sequences and identical
market-event-line sequences (shuffled order included): in the embedding the
generator is a pure function of the parameters and of the PRNG state, and
`pySeed` determines that state from the seed alone. -/
theorem generate_dataset_deterministic
    (seed₁ seed₂ nT₁ nT₂ nU₁ nU₂ nD₁ nD₂ : Nat)
    (hs : seed₁ = seed₂) (hT : nT₁ = nT₂) (hU : nU₁ = nU₂) (hD : nD₁ = nD₂) :
    (generate_dataset nT₁ nU₁ nD₁ (pySeed seed₁)).1.bank_lines =
        (generate_dataset nT₂ nU₂ nD₂ (pySeed seed₂)).1.bank_lines ∧
      (generate_dataset nT₁ nU₁ nD₁ (pySeed seed₁)).1.market_lines =
        (generate_dataset nT₂ nU₂ nD₂ (pySeed seed₂)).1.market_lines := by
  subst hs; subst hT; subst hU; subst hD
  exact ⟨rfl, rfl⟩

theorem generate_dataset_deterministic_witness :
    (generate_dataset 25 7 5 (pySeed 42)).1.bank_lines =
        (generate_dataset 25 7 5 (pySeed 42)).1.bank_lines ∧
      (generate_dataset 25 7 5 (pySeed 42)).1.market_lines =
        (generate_dataset 25 7 5 (pySeed 42)).1.market_lines :=
  generate_dataset_deterministic 42 42 25 25 7 7 5 5 rfl rfl rfl rfl

/-! ## Claims C4 and C5: the polling protocol -/

/-- C4: if the status artifact's counts already equal the expected triple at
the first poll, the loop returns that triple as its success result at once —
whatever observations would have followed within the timeout window (the
child may well still be running) are never consulted. -/
theorem pollLoop_first_poll_satisfied (expected : Nat × Nat × Nat)
    (t : String) (rest : List (Option String)) (final : Option String)
    (h : countStatus t = expected) :
    pollLoop expected (some t :: rest) final = .satisfied expected := by
  simp [pollLoop, h]

theorem pollLoop_first_poll_satisfied_witness :
    countStatus "StateChanged(o1 to=Matched)\nNoMatch(x)\nDuplicateIgnored(y)"
        = (1, 1, 1) ∧
      pollLoop (1, 1, 1)
        [some "StateChanged(o1 to=Matched)\nNoMatch(x)\nDuplicateIgnored(y)",
         none, none] none = .satisfied (1, 1, 1) :=
  ⟨by decide,
   pollLoop_first_poll_satisfied (1, 1, 1)
     "StateChanged(o1 to=Matched)\nNoMatch(x)\nDuplicateIgnored(y)"
     [none, none] none (by decide)⟩

/-- C5: if no poll within the timeout window ever shows the expected triple,
the loop returns (it does not raise) the triple computed from the artifact's
content as read after the timeout — never a fabricated value; judging that
result is left to the caller. -/
theorem pollLoop_timeout_returns_observed (expected : Nat × Nat × Nat)
    (obs : List (Option String)) (finalText : String)
    (h : ∀ o ∈ obs, o.map countStatus ≠ some expected) :
    pollLoop expected obs (some finalText) =
      .timedOut (countStatus finalText) := by
  induction obs with
  | nil => rfl
  | cons o rest ih =>
    have hrest : ∀ o ∈ rest, o.map countStatus ≠ some expected :=
      fun o ho => h o (List.mem_cons_of_mem _ ho)
    cases o with
    | none => simpa [pollLoop] using ih hrest
    | some t =>
      have hne : countStatus t ≠ expected := by
        have := h (some t) (List.mem_cons_self _ _)
        simpa using this
      simpa [pollLoop, hne] using ih hrest

theorem pollLoop_timeout_returns_observed_witness :
    (∀ o ∈ [(none : Option String), some "NoMatch(a)"],
        o.map countStatus ≠ some (5, 0, 0)) ∧
      pollLoop (5, 0, 0) [none, some "NoMatch(a)"]
          (some "NoMatch(a)\nNoMatch(b)") =
        .timedOut (countStatus "NoMatch(a)\nNoMatch(b)") :=
  ⟨by decide,
   pollLoop_timeout_returns_observed (5, 0, 0) [none, some "NoMatch(a)"]
     "NoMatch(a)\nNoMatch(b)" (by decide)⟩

/-! ## Claim C6: the child process is terminated on every exit path -/

/-- C6: whichever way the try-block ends — a satisfied return, a timed-out
return, or an exception raised while polling — the `finally` block runs:
graceful termination is requested first and a force-kill follows if the
child does not exit within the grace period, so no exit path leaves the
child running. -/
theorem runner_child_never_left_running (body : BodyOutcome)
    (exitsOnTerminate : Bool) :
    (run_kotlin_runner_and_wait body exitsOnTerminate).1 = body ∧
      (run_kotlin_runner_and_wait body exitsOnTerminate).2 ≠ .running := by
  refine ⟨rfl, ?_⟩
  cases exitsOnTerminate <;> simp [run_kotlin_runner_and_wait, finallyCleanup]

/-! ## Claims C7 and C10: the metrics parser -/

theorem lookup_isSome_iff_mem_keys (k : String) (d : PyDict) :
    (List.lookup k d).isSome ↔ k ∈ d.map Prod.fst := by
  induction d with
  | nil => simp [List.lookup]
  | cons a rest ih =>
    rcases a with ⟨ak, av⟩
    by_cases hk : k = ak
    · simp [List.lookup, hk]
    · have hbeq : (k == ak) = false := by simpa using hk
      simp [List.lookup, hbeq, hk, ih]

theorem map_fst_mapReplace (k' : String) (v : ℚ) (d : PyDict) :
    (d.map (fun kv => if kv.1 = k' then (k', v) else kv)).map Prod.fst =
      d.map Prod.fst := by
  induction d with
  | nil => rfl
  | cons a rest ih =>
    simp only [List.map_cons, ih, List.cons.injEq, and_true]
    split
    · rename_i h
      exact h.symm
    · rfl

theorem mem_keys_dictSet (d : PyDict) (k' : String) (v : ℚ) (k : String)
    (h : k ∈ d.map Prod.fst) : k ∈ (dictSet d k' v).map Prod.fst := by
  unfold dictSet
  split
  · rw [map_fst_mapReplace]
    exact h
  · simp [h]

theorem mem_keys_parsePair (d : PyDict) (p : String) (k : String)
    (h : k ∈ d.map Prod.fst) : k ∈ (parsePair d p).map Prod.fst := by
  simp only [parsePair]
  repeat' split
  all_goals first
    | exact h
    | exact mem_keys_dictSet _ _ _ _ h

theorem mem_keys_foldl_parsePair (pairs : List String) (d : PyDict)
    (k : String) (h : k ∈ d.map Prod.fst) :
    k ∈ (pairs.foldl parsePair d).map Prod.fst := by
  induction pairs generalizing d with
  | nil => exact h
  | cons p ps ih =>
    exact ih _ (mem_keys_parsePair d p k h)

theorem parse_kotlin_metrics_keys (stdout : String) (k : String)
    (h : k ∈ metricsBaseDict.map Prod.fst) :
    k ∈ (parse_kotlin_metrics stdout).map Prod.fst := by
  rw [parse_kotlin_metrics]
  cases hfind : (pySplitlines stdout).find?
      (fun line => strStarts line "BENCHMARK_METRICS:") with
  | none => exact h
  | some line => exact mem_keys_foldl_parsePair _ _ _ h

/-- C7: on the documented metrics line the parser yields
`{memory_mb: 12.5, gc_time_ms: 3.2, cpu_time_ms: 100.0, peak_entities: 42}`
(the `duration_ms` key populating the `cpu_time_ms` field), and on any
output with no line beginning with the marker it returns the all-zero
record rather than failing. -/
theorem parse_kotlin_metrics_marker_and_absence :
    parse_kotlin_metrics
        "BENCHMARK_METRICS: memory_mb=12.5, gc_time_ms=3.2, duration_ms=100.0, peak_entities=42"
      = [("memory_mb", (25 : ℚ) / 2), ("gc_time_ms", (16 : ℚ) / 5),
         ("cpu_time_ms", 100), ("peak_entities", 42)] ∧
    ∀ stdout : String,
      (∀ line ∈ pySplitlines stdout, ¬ strStarts line "BENCHMARK_METRICS:") →
      parse_kotlin_metrics stdout =
        [("memory_mb", 0), ("gc_time_ms", 0), ("cpu_time_ms", 0),
         ("peak_entities", 0)] := by
  constructor
  · have h1 : parse_kotlin_metrics
        "BENCHMARK_METRICS: memory_mb=12.5, gc_time_ms=3.2, duration_ms=100.0, peak_entities=42"
      = [("memory_mb", ((12 : ℕ) : ℚ) + ((5 : ℕ) : ℚ) / (10 : ℚ) ^ (1 : ℕ)),
         ("gc_time_ms", ((3 : ℕ) : ℚ) + ((2 : ℕ) : ℚ) / (10 : ℚ) ^ (1 : ℕ)),
         ("cpu_time_ms",
           ((100 : ℕ) : ℚ) + ((0 : ℕ) : ℚ) / (10 : ℚ) ^ (1 : ℕ)),
         ("peak_entities", ((42 : ℕ) : ℚ))] := rfl
    rw [h1]
    norm_num
  · intro stdout h
    have hfind : (pySplitlines stdout).find?
        (fun line => strStarts line "BENCHMARK_METRICS:") = none := by
      apply List.find?_eq_none.mpr
      intro x hx
      simpa using h x hx
    rw [parse_kotlin_metrics, hfind]
    rfl

theorem parse_kotlin_metrics_marker_and_absence_witness :
    parse_kotlin_metrics
        "BENCHMARK_METRICS: memory_mb=12.5, gc_time_ms=3.2, duration_ms=100.0, peak_entities=42"
      = [("memory_mb", (25 : ℚ) / 2), ("gc_time_ms", (16 : ℚ) / 5),
         ("cpu_time_ms", 100), ("peak_entities", 42)] ∧
    parse_kotlin_metrics "hello\nworld" =
      [("memory_mb", 0), ("gc_time_ms", 0), ("cpu_time_ms", 0),
       ("peak_entities", 0)] :=
  ⟨parse_kotlin_metrics_marker_and_absence.1,
   parse_kotlin_metrics_marker_and_absence.2 "hello\nworld" (by decide)⟩

/-- C10: the parser's result always carries all four keys, so the
`profiling_data.get(key, fallback)` lookups in `_run_single_measurement`
never fall back; in particular, with no marker line the recorded
`cpu_time_ms` is `0` (not the wall-clock duration passed as the fallback)
and `peak_entities` is `0` (not the configured obligation count). -/
theorem run_single_measurement_never_falls_back :
    (∀ stdout : String,
      (List.lookup "memory_mb" (parse_kotlin_metrics stdout)).isSome ∧
      (List.lookup "gc_time_ms" (parse_kotlin_metrics stdout)).isSome ∧
      (List.lookup "cpu_time_ms" (parse_kotlin_metrics stdout)).isSome ∧
      (List.lookup "peak_entities" (parse_kotlin_metrics stdout)).isSome) ∧
    ∀ (config : BenchmarkConfig) (duration_ms : ℚ) (stdout : String),
      (∀ line ∈ pySplitlines stdout, ¬ strStarts line "BENCHMARK_METRICS:") →
      (run_single_measurement config duration_ms
          (parse_kotlin_metrics stdout)).cpu_time_ms = 0 ∧
      (run_single_measurement config duration_ms
          (parse_kotlin_metrics stdout)).peak_entities = 0 := by
  constructor
  · intro stdout
    refine ⟨?_, ?_, ?_, ?_⟩ <;>
      exact (lookup_isSome_iff_mem_keys _ _).mpr
        (parse_kotlin_metrics_keys stdout _ (by decide))
  · intro config duration_ms stdout h
    have hfind : (pySplitlines stdout).find?
        (fun line => strStarts line "BENCHMARK_METRICS:") = none := by
      apply List.find?_eq_none.mpr
      intro x hx
      simpa using h x hx
    have hparse : parse_kotlin_metrics stdout = metricsBaseDict := by
      rw [parse_kotlin_metrics, hfind]
    rw [hparse]
    have hget : dictGet metricsBaseDict "peak_entities"
        ((config.num_obligations : ℚ)) = 0 := rfl
    refine ⟨rfl, ?_⟩
    simp only [run_single_measurement, hget]
    simp [pyIntTrunc]

theorem run_single_measurement_never_falls_back_witness :
    ((List.lookup "memory_mb" (parse_kotlin_metrics "hello")).isSome ∧
      (List.lookup "gc_time_ms" (parse_kotlin_metrics "hello")).isSome ∧
      (List.lookup "cpu_time_ms" (parse_kotlin_metrics "hello")).isSome ∧
      (List.lookup "peak_entities" (parse_kotlin_metrics "hello")).isSome) ∧
    (run_single_measurement
        ⟨"micro", "d", 10, 20, 2, 1, 3, 5, 60⟩ 7
        (parse_kotlin_metrics "hello")).cpu_time_ms = 0 ∧
    (run_single_measurement
        ⟨"micro", "d", 10, 20, 2, 1, 3, 5, 60⟩ 7
        (parse_kotlin_metrics "hello")).peak_entities = 0 :=
  ⟨run_single_measurement_never_falls_back.1 "hello",
   run_single_measurement_never_falls_back.2
     ⟨"micro", "d", 10, 20, 2, 1, 3, 5, 60⟩ 7 "hello" (by decide)⟩

/-! ## Claim C8: the benchmark's additional-events loop -/

theorem getD_mem {α : Type} (l : List α) (i : Nat) (d : α)
    (h : i < l.length) : l.getD i d ∈ l := by
  induction l generalizing i with
  | nil => simp at h
  | cons x xs ih =>
    cases i with
    | zero => simp [List.getD]
    | succ j =>
      have hj : xs.getD j d ∈ xs := ih j (by simpa using h)
      simp only [List.getD_cons_succ]
      exact List.mem_cons_of_mem _ hj

theorem addEvent_lines_length (trades : List Trade) (i : Nat)
    (st : BenchGenState) :
    (addEvent trades i st).market_lines.length =
      st.market_lines.length + 1 := by
  simp [addEvent]

theorem addEvents_length (trades : List Trade) (n : Nat)
    (st₀ : BenchGenState) :
    (addEvents trades n st₀).market_lines.length =
      st₀.market_lines.length + n := by
  induction n with
  | zero => rfl
  | succ n ih =>
    rw [addEvents, List.range_succ, List.foldl_append, List.foldl_cons,
      List.foldl_nil]
    rw [addEvent_lines_length]
    rw [← addEvents]
    rw [ih]
    omega

/-- C8: the additional-events loop appends exactly one event per index
`i = 0, 1, …` (so `eventCount − obligationCount` in all), and each step
picks an existing obligation from `trades`, emits the next sequence number
under that obligation's message id (updating the stored last sequence),
with the status code cycling by `i % 3` through partial settlement
(quantity quartered by integer division), full settlement, and
acknowledgment. -/
theorem additional_events_cycle_and_extend (trades : List Trade)
    (htr : trades ≠ []) (n : Nat) (st₀ : BenchGenState) (i : Nat)
    (st : BenchGenState) :
    (addEvents trades n st₀).market_lines.length =
        st₀.market_lines.length + n ∧
      ∃ t ∈ trades, ∃ msg_id last_seq,
        seqLookup st.msg_seq t.obligation_id = (msg_id, last_seq) ∧
        (addEvent trades i st).market_lines =
          st.market_lines ++ [additionalEventLine msg_id (last_seq + 1) t i] ∧
        (addEvent trades i st).msg_seq =
          seqSet st.msg_seq t.obligation_id (msg_id, last_seq + 1) ∧
        (i % 3 = 0 → additionalEventLine msg_id (last_seq + 1) t i =
          msg_id ++ "," ++ decString (last_seq + 1) ++ ",PARTIAL_SETTLED,"
            ++ t.isin ++ "," ++ t.account ++ "," ++ t.settle_date ++ ","
            ++ decString (t.intended_qty / 4) ++ ",2024-01-01T00:00:00Z") ∧
        (i % 3 = 1 → additionalEventLine msg_id (last_seq + 1) t i =
          msg_id ++ "," ++ decString (last_seq + 1) ++ ",SETTLED,"
            ++ t.isin ++ "," ++ t.account ++ "," ++ t.settle_date ++ ","
            ++ decString t.intended_qty ++ ",2024-01-01T00:00:00Z") ∧
        (i % 3 = 2 → additionalEventLine msg_id (last_seq + 1) t i =
          msg_id ++ "," ++ decString (last_seq + 1) ++ ",ACK,"
            ++ t.isin ++ "," ++ t.account ++ "," ++ t.settle_date ++ ","
            ++ decString t.intended_qty ++ ",2024-01-01T00:00:00Z") := by
  refine ⟨addEvents_length trades n st₀, ?_⟩
  have hlen : 0 < trades.length := by
    cases trades with
    | nil => exact absurd rfl htr
    | cons x xs => simp
  refine ⟨(pyChoice trades default st.rng).1, ?_, ?_⟩
  · simp only [pyChoice, Rng.below, Rng.next]
    exact getD_mem trades _ default (Nat.mod_lt _ hlen)
  · refine ⟨(seqLookup st.msg_seq
        (pyChoice trades default st.rng).1.obligation_id).1,
      (seqLookup st.msg_seq
        (pyChoice trades default st.rng).1.obligation_id).2,
      rfl, rfl, rfl, ?_, ?_, ?_⟩
    · intro h; simp [additionalEventLine, h]
    · intro h; simp [additionalEventLine, h]
    · intro h; simp [additionalEventLine, h]

theorem additional_events_cycle_and_extend_witness :
    ([(⟨"OBL00001", "LSE", "US1", "ACC1", "2024-01-01", 100⟩ : Trade)] ≠
        []) ∧
      ((addEvents [⟨"OBL00001", "LSE", "US1", "ACC1", "2024-01-01", 100⟩] 1
          ⟨[], [], pySeed 0⟩).market_lines.length = 0 + 1 ∧
        ∃ t ∈ [(⟨"OBL00001", "LSE", "US1", "ACC1", "2024-01-01", 100⟩ :
            Trade)], ∃ msg_id last_seq,
          seqLookup ([] : List (String × String × Nat)) t.obligation_id =
            (msg_id, last_seq) ∧
          (addEvent [⟨"OBL00001", "LSE", "US1", "ACC1", "2024-01-01", 100⟩]
              0 ⟨[], [], pySeed 0⟩).market_lines =
            [] ++ [additionalEventLine msg_id (last_seq + 1) t 0] ∧
          (addEvent [⟨"OBL00001", "LSE", "US1", "ACC1", "2024-01-01", 100⟩]
              0 ⟨[], [], pySeed 0⟩).msg_seq =
            seqSet ([] : List (String × String × Nat)) t.obligation_id
              (msg_id, last_seq + 1) ∧
          (0 % 3 = 0 → additionalEventLine msg_id (last_seq + 1) t 0 =
            msg_id ++ "," ++ decString (last_seq + 1) ++ ",PARTIAL_SETTLED,"
              ++ t.isin ++ "," ++ t.account ++ "," ++ t.settle_date ++ ","
              ++ decString (t.intended_qty / 4) ++ ",2024-01-01T00:00:00Z") ∧
          (0 % 3 = 1 → additionalEventLine msg_id (last_seq + 1) t 0 =
            msg_id ++ "," ++ decString (last_seq + 1) ++ ",SETTLED,"
              ++ t.isin ++ "," ++ t.account ++ "," ++ t.settle_date ++ ","
              ++ decString t.intended_qty ++ ",2024-01-01T00:00:00Z") ∧
          (0 % 3 = 2 → additionalEventLine msg_id (last_seq + 1) t 0 =
            msg_id ++ "," ++ decString (last_seq + 1) ++ ",ACK,"
              ++ t.isin ++ "," ++ t.account ++ "," ++ t.settle_date ++ ","
              ++ decString t.intended_qty ++ ",2024-01-01T00:00:00Z")) :=
  ⟨by simp,
   additional_events_cycle_and_extend
     [⟨"OBL00001", "LSE", "US1", "ACC1", "2024-01-01", 100⟩] (by simp) 1
     ⟨[], [], pySeed 0⟩ 0 ⟨[], [], pySeed 0⟩⟩

/-! ## Claim C9: the statistics aggregation -/

/-- C9: the benchmark result retains every recorded iteration in order
(none dropped), its aggregate fields equal the arithmetic means of the
recorded per-iteration fields (with the peak-entity mean truncated to an
integer as Python's `int()` does), and with at least two recorded
iterations the reported sample standard deviation of throughput is
non-negative. -/
theorem run_benchmark_mean_and_retention (config : BenchmarkConfig)
    (measure : Nat → PerformanceMetrics) (timestamp : String) :
    (run_benchmark config measure timestamp).metrics.length =
        config.measurement_iterations ∧
      (∀ i, i < config.measurement_iterations →
        (run_benchmark config measure timestamp).metrics[i]? =
          some (measure i)) ∧
      ((run_benchmark config measure timestamp).mean_metrics.duration_ms =
        ((run_benchmark config measure timestamp).metrics.map
            (·.duration_ms)).sum /
          (((run_benchmark config measure timestamp).metrics.length : ℚ))) ∧
      ((run_benchmark config measure
          timestamp).mean_metrics.throughput_ops_per_sec =
        ((run_benchmark config measure timestamp).metrics.map
            (·.throughput_ops_per_sec)).sum /
          (((run_benchmark config measure timestamp).metrics.length : ℚ))) ∧
      ((run_benchmark config measure timestamp).mean_metrics.memory_used_mb =
        ((run_benchmark config measure timestamp).metrics.map
            (·.memory_used_mb)).sum /
          (((run_benchmark config measure timestamp).metrics.length : ℚ))) ∧
      ((run_benchmark config measure timestamp).mean_metrics.gc_time_ms =
        ((run_benchmark config measure timestamp).metrics.map
            (·.gc_time_ms)).sum /
          (((run_benchmark config measure timestamp).metrics.length : ℚ))) ∧
      ((run_benchmark config measure timestamp).mean_metrics.cpu_time_ms =
        ((run_benchmark config measure timestamp).metrics.map
            (·.cpu_time_ms)).sum /
          (((run_benchmark config measure timestamp).metrics.length : ℚ))) ∧
      ((run_benchmark config measure timestamp).mean_metrics.peak_entities =
        pyIntTrunc (((run_benchmark config measure timestamp).metrics.map
            (fun m => ((m.peak_entities : ℚ)))).sum /
          (((run_benchmark config measure timestamp).metrics.length : ℚ)))) ∧
      (2 ≤ (run_benchmark config measure timestamp).metrics.length →
        0 ≤ pyStdev ((run_benchmark config measure timestamp).metrics.map
          (·.throughput_ops_per_sec))) := by
  refine ⟨?_, ?_, ?_, ?_, ?_, ?_, ?_, ?_, ?_⟩
  · simp [run_benchmark]
  · intro i hi
    simp [run_benchmark, List.getElem?_map, List.getElem?_range, hi]
  · simp [run_benchmark, calculate_mean_metrics, pyMean]
  · simp [run_benchmark, calculate_mean_metrics, pyMean]
  · simp [run_benchmark, calculate_mean_metrics, pyMean]
  · simp [run_benchmark, calculate_mean_metrics, pyMean]
  · simp [run_benchmark, calculate_mean_metrics, pyMean]
  · simp [run_benchmark, calculate_mean_metrics, pyMean]
  · intro _
    exact Real.sqrt_nonneg _

theorem run_benchmark_mean_and_retention_witness :
    (run_benchmark ⟨"w", "d", 1, 2, 0, 0, 0, 2, 60⟩
        (fun _ => ⟨"s", 1, 2, 1, 2, 0, 0, 1, 1⟩) "t").metrics.length = 2 ∧
      (run_benchmark ⟨"w", "d", 1, 2, 0, 0, 0, 2, 60⟩
          (fun _ => ⟨"s", 1, 2, 1, 2, 0, 0, 1, 1⟩) "t").metrics[0]? =
        some ⟨"s", 1, 2, 1, 2, 0, 0, 1, 1⟩ ∧
      0 ≤ pyStdev ((run_benchmark ⟨"w", "d", 1, 2, 0, 0, 0, 2, 60⟩
          (fun _ => ⟨"s", 1, 2, 1, 2, 0, 0, 1, 1⟩) "t").metrics.map
        (·.throughput_ops_per_sec)) :=
  ⟨(run_benchmark_mean_and_retention ⟨"w", "d", 1, 2, 0, 0, 0, 2, 60⟩
      (fun _ => ⟨"s", 1, 2, 1, 2, 0, 0, 1, 1⟩) "t").1,
   (run_benchmark_mean_and_retention ⟨"w", "d", 1, 2, 0, 0, 0, 2, 60⟩
      (fun _ => ⟨"s", 1, 2, 1, 2, 0, 0, 1, 1⟩) "t").2.1 0 (by norm_num),
   (run_benchmark_mean_and_retention ⟨"w", "d", 1, 2, 0, 0, 0, 2, 60⟩
      (fun _ => ⟨"s", 1, 2, 1, 2, 0, 0, 1, 1⟩) "t").2.2.2.2.2.2.2.2 (by
        rw [(run_benchmark_mean_and_retention ⟨"w", "d", 1, 2, 0, 0, 0, 2,
          60⟩ (fun _ => ⟨"s", 1, 2, 1, 2, 0, 0, 1, 1⟩) "t").1])⟩

end Harness
